import Mathlib

/-!
Verification of the terminal lifecycle orchestrator.

This file shallowly embeds the core of the orchestrator: the terminal
record model (`src/database/models.py`), the terminal routes
(`src/api/routes/terminals.py`), the callback routes
(`src/api/routes/callbacks.py`), callback authentication
(`src/auth/callback_auth.py`), the cleanup service
(`src/services/cleanup_service.py`), the stats cache
(`src/services/stats_service.py`) and the container drivers
(`src/services/container_service.py`, `src/services/docker_cli_service.py`).

Modelling conventions:
- The record store (a SQL table keyed by primary key `id`) is a
  `List Terminal`; point updates are keyed by `id`.
- Timestamps are integers (`Int`); units are uniform within each claim.
- Fractional resource metrics are modelled as integers: no verified claim
  depends on fractional arithmetic or rounding.
- External effects (HTTP polls, `docker` subprocesses, the Kubernetes
  API) are passed in as explicit outcome values (`Except`/`Option`), one
  per call site, exactly where the Python code performs the call.
- The HMAC-SHA256 primitive is an explicit function parameter; the code
  around it (message construction, comparison, rejection) is embedded
  faithfully.  `hmac.compare_digest` is equality; its constant-time
  execution is a timing property outside a functional embedding.
-/

/-- Terminal status enumeration (`TerminalStatus` in `models.py`). -/
inductive TerminalStatus where
  | pending
  | starting
  | started
  | stopped
  | expired
  | failed
deriving DecidableEq, Repr

/-- The persisted terminal record (`Terminal` in `models.py`).
`updated_at` is maintained by the store (`onupdate=func.now()`) and is
omitted: no claim mentions it.  `created_at` is non-nullable in the
schema, so it is a plain `Int` here. -/
structure Terminal where
  id : String := ""
  status : TerminalStatus := .pending
  user_id : Option String := none
  tunnel_url : Option String := none
  container_id : Option String := none
  container_name : Option String := none
  host_port : Option String := none
  created_at : Int := 0
  expires_at : Option Int := none
  deleted_at : Option Int := none
  last_activity_at : Option Int := none
  error_message : Option String := none
deriving DecidableEq, Repr

/-- Point lookup `db.query(Terminal).filter(Terminal.id == terminal_id).first()`. -/
def findTerminal (db : List Terminal) (terminal_id : String) : Option Terminal :=
  db.find? (fun t => t.id == terminal_id)

/-- Point update of the record with the given primary key: mutating the
ORM object and committing writes back the row keyed by `id`. -/
def updateTerminal (db : List Terminal) (terminal_id : String)
    (f : Terminal → Terminal) : List Terminal :=
  db.map (fun t => if t.id == terminal_id then f t else t)

/-- `Terminal.is_idle` from `models.py`: the reference time is
`last_activity_at` falling back to `created_at`; idle iff that time is
strictly before `now - idle_timeout`.  (The defensive `check_time is
None` guard in the source is unreachable here because `created_at` is
non-nullable in the schema.)  Times are in minutes, matching the
source's `timedelta(minutes=idle_timeout_minutes)`. -/
def Terminal.is_idle (t : Terminal) (now : Int) (idle_timeout_minutes : Int) : Bool :=
  let check_time := t.last_activity_at.getD t.created_at
  let idle_threshold := now - idle_timeout_minutes
  decide (check_time < idle_threshold)

/-- `Terminal.is_expired` from `models.py`: false when `expires_at` is
null, otherwise `now > expires_at`. -/
def Terminal.is_expired (t : Terminal) (now : Int) : Bool :=
  match t.expires_at with
  | none => false
  | some e => decide (now > e)

/-- `Terminal.set_expiry` from `models.py`: `expires_at := now + ttl`. -/
def Terminal.set_expiry (t : Terminal) (now ttl : Int) : Terminal :=
  { t with expires_at := some (now + ttl) }

/-- Looking up the updated key after a key-preserving point update
yields the updated record. -/
theorem findTerminal_updateTerminal_self (db : List Terminal) (i : String)
    (f : Terminal → Terminal) (hf : ∀ t, (f t).id = t.id) :
    findTerminal (updateTerminal db i f) i = (findTerminal db i).map f := by
  induction db with
  | nil => rfl
  | cons a rest ih =>
    simp only [updateTerminal, findTerminal, List.map_cons] at ih ⊢
    by_cases h : (a.id == i) = true
    · have hfa : ((f a).id == i) = true := by rw [hf a]; exact h
      rw [if_pos h]
      simp [h, hfa]
    · rw [if_neg h]
      simp only [Bool.not_eq_true] at h
      simp only [List.find?_cons, h]
      exact ih

/-- Looking up a different key after a key-preserving point update is
unaffected. -/
theorem findTerminal_updateTerminal_other (db : List Terminal) (i j : String)
    (f : Terminal → Terminal) (hf : ∀ t, (f t).id = t.id) (hij : i ≠ j) :
    findTerminal (updateTerminal db i f) j = findTerminal db j := by
  induction db with
  | nil => rfl
  | cons a rest ih =>
    simp only [updateTerminal, findTerminal, List.map_cons] at ih ⊢
    by_cases h : (a.id == i) = true
    · have haj : (a.id == j) = false := by
        have hai : a.id = i := beq_iff_eq.mp h
        simp [hai, hij]
      have hfaj : ((f a).id == j) = false := by rw [hf a]; exact haj
      rw [if_pos h]
      simp only [List.find?_cons, haj, hfaj]
      exact ih
    · rw [if_neg h]
      by_cases hj : (a.id == j) = true
      · simp only [List.find?_cons, hj]
      · simp only [Bool.not_eq_true] at hj
        simp only [List.find?_cons, hj]
        exact ih

/-- Two successive key-preserving point updates of the same key compose. -/
theorem updateTerminal_updateTerminal (db : List Terminal) (i : String)
    (f g : Terminal → Terminal) (hf : ∀ t, (f t).id = t.id) :
    updateTerminal (updateTerminal db i f) i g =
      updateTerminal db i (fun t => g (f t)) := by
  simp only [updateTerminal, List.map_map]
  apply List.map_congr_left
  intro a _
  by_cases h : (a.id == i) = true
  · have hfa : ((f a).id == i) = true := by rw [hf a]; exact h
    simp only [Function.comp_apply, if_pos h, if_pos hfa]
  · simp only [Function.comp_apply, if_neg h]

/-- A point update leaves records with other keys in place (membership
view of the frame condition). -/
theorem mem_updateTerminal_of_ne (db : List Terminal) (i : String)
    (f : Terminal → Terminal) (t : Terminal) (ht : t ∈ db) (hne : ¬ t.id = i) :
    t ∈ updateTerminal db i f := by
  have : (t.id == i) = false := by simp [hne]
  have himg : (if (t.id == i) then f t else t) ∈ updateTerminal db i f :=
    List.mem_map_of_mem _ ht
  simpa [this] using himg

/-- A point update maps the records with the target key (membership view). -/
theorem mem_updateTerminal_of_eq (db : List Terminal) (i : String)
    (f : Terminal → Terminal) (t : Terminal) (ht : t ∈ db) (heq : t.id = i) :
    f t ∈ updateTerminal db i f := by
  have : (t.id == i) = true := by simp [heq]
  have himg : (if (t.id == i) then f t else t) ∈ updateTerminal db i f :=
    List.mem_map_of_mem _ ht
  simpa [this] using himg

/-- `generate_callback_token` from `callback_auth.py`: HMAC-SHA256 of
`"callback:" + terminal_id` keyed by the server secret
(`settings.JWT_SECRET_KEY`).  The HMAC primitive itself
(`hmac.new(secret, message, hashlib.sha256).hexdigest()`) is an
external cryptographic function, passed in as the parameter `hmac`
taking the key and the message. -/
def generate_callback_token (hmac : String → String → String)
    (secret terminal_id : String) : String :=
  hmac secret ("callback:" ++ terminal_id)

/-- `verify_callback_token` from `callback_auth.py`: false on an empty
`terminal_id` or empty `token` (Python falsiness), otherwise
`hmac.compare_digest(token, expected_token)` — an exact equality,
executed in constant time in the source. -/
def verify_callback_token (hmac : String → String → String)
    (secret terminal_id token : String) : Bool :=
  if terminal_id = "" ∨ token = "" then false
  else token == generate_callback_token hmac secret terminal_id

/-- The whitespace characters Python's `str.split()` (with no
separator argument) splits on. -/
def isPySpace (c : Char) : Bool :=
  c == ' ' || c == '\t' || c == '\n' || c == '\r' || c == '\x0B' || c == '\x0C'

/-- Helper for `pySplit`: accumulate the current word (reversed) while
scanning the character list. -/
def splitWhitespaceAux : List Char → List Char → List String
  | [], acc => if acc = [] then [] else [String.mk acc.reverse]
  | c :: cs, acc =>
    if isPySpace c then
      if acc = [] then splitWhitespaceAux cs []
      else String.mk acc.reverse :: splitWhitespaceAux cs []
    else splitWhitespaceAux cs (c :: acc)

/-- Python `str.split()` with no separator: split on runs of
whitespace, discarding empty parts. -/
def pySplit (s : String) : List String :=
  splitWhitespaceAux s.data []

/-- Python `str.lower()` (the source only compares against the ASCII
literal `"bearer"`). -/
def pyLower (s : String) : String :=
  String.mk (s.data.map Char.toLower)

/-- `extract_bearer_token` from `callback_auth.py`: split the header on
whitespace; require exactly two parts with the first equal to
`"bearer"` case-insensitively. -/
def extract_bearer_token (authorization : Option String) : Option String :=
  match authorization with
  | none => none
  | some a =>
    match pySplit a with
    | [scheme, token] => if pyLower scheme = "bearer" then some token else none
    | _ => none

/-- The callback payload (`TerminalCallbackRequest` in `schemas.py`).
Metric values are modelled as integers (see the header). -/
structure TerminalCallbackRequest where
  terminal_id : String
  tunnel_url : Option String := none
  status : Option TerminalStatus := none
  error_message : Option String := none
  cpu_percent : Option Int := none
  memory_mb : Option Int := none
  memory_percent : Option Int := none
deriving DecidableEq, Repr

/-- `verify_callback_authentication` from `callbacks.py`: reject with
HTTP 401 when the bearer token is absent or does not verify for the
payload's `terminal_id`.  Errors are HTTP status codes. -/
def verify_callback_authentication (hmac : String → String → String)
    (secret : String) (callback : TerminalCallbackRequest)
    (authorization : Option String) : Except Nat Unit :=
  match extract_bearer_token authorization with
  | none => .error 401
  | some token =>
    if verify_callback_token hmac secret callback.terminal_id token then .ok ()
    else .error 401

/-- `report_tunnel_url` (`POST /callbacks/tunnel`): after
authentication, load the record (404 when absent), set `tunnel_url`
to the reported URL and `status` to `Started`, and commit. -/
def report_tunnel_url (hmac : String → String → String) (secret : String)
    (db : List Terminal) (callback : TerminalCallbackRequest)
    (authorization : Option String) : Except Nat (List Terminal) := do
  let _ ← verify_callback_authentication hmac secret callback authorization
  match findTerminal db callback.terminal_id with
  | none => .error 404
  | some _ =>
    .ok (updateTerminal db callback.terminal_id (fun t =>
      { t with tunnel_url := callback.tunnel_url, status := .started }))

/-- `report_status` (`POST /callbacks/status`): after authentication
and lookup, set `status` when supplied; a non-empty `error_message`
additionally forces `status = Failed` (an empty string is falsy in the
source and is ignored). -/
def report_status (hmac : String → String → String) (secret : String)
    (db : List Terminal) (callback : TerminalCallbackRequest)
    (authorization : Option String) : Except Nat (List Terminal) := do
  let _ ← verify_callback_authentication hmac secret callback authorization
  match findTerminal db callback.terminal_id with
  | none => .error 404
  | some _ =>
    .ok (updateTerminal db callback.terminal_id (fun t =>
      let t1 := match callback.status with
        | some s => { t with status := s }
        | none => t
      match callback.error_message with
      | some em =>
        if em = "" then t1
        else { t1 with error_message := some em, status := .failed }
      | none => t1))

/-- `container_health_check` (`POST /callbacks/health`): after
authentication and lookup, `set_last_activity()` — the record's
`last_activity_at` becomes the current time — and commit. -/
def container_health_check (hmac : String → String → String) (secret : String)
    (now : Int) (db : List Terminal) (callback : TerminalCallbackRequest)
    (authorization : Option String) : Except Nat (List Terminal) := do
  let _ ← verify_callback_authentication hmac secret callback authorization
  match findTerminal db callback.terminal_id with
  | none => .error 404
  | some _ =>
    .ok (updateTerminal db callback.terminal_id (fun t =>
      { t with last_activity_at := some now }))

/-- One entry of the in-memory stats cache (`StatsService._stats_cache`
in `stats_service.py`), keyed by container id. -/
structure ContainerStats where
  cpu_percent : Int
  memory_mb : Int
  memory_percent : Int
  timestamp : Int
deriving DecidableEq, Repr

/-- The process-local stats cache: a dictionary from container id to
its latest reported stats. -/
abbrev StatsCache := List (String × ContainerStats)

/-- `StatsService.update_container_stats`: no-op on an empty (falsy)
container id, otherwise replace the entry for this container id. -/
def update_container_stats (cache : StatsCache) (container_id : String)
    (cpu_percent memory_mb memory_percent now : Int) : StatsCache :=
  if container_id = "" then cache
  else
    (container_id,
      { cpu_percent := cpu_percent, memory_mb := memory_mb,
        memory_percent := memory_percent, timestamp := now }) ::
      cache.filter (fun p => p.1 ≠ container_id)

/-- `report_stats` (`POST /callbacks/stats`): after authentication and
lookup, when the record has a (truthy) `container_id` and the payload
carries `cpu_percent` or `memory_mb`, update the in-memory stats cache
keyed by that container id (`x or 0.0` in the source maps absent
metrics to zero); the persisted record is never written. -/
def report_stats (hmac : String → String → String) (secret : String)
    (now : Int) (db : List Terminal) (cache : StatsCache)
    (callback : TerminalCallbackRequest) (authorization : Option String) :
    Except Nat (List Terminal × StatsCache) := do
  let _ ← verify_callback_authentication hmac secret callback authorization
  match findTerminal db callback.terminal_id with
  | none => .error 404
  | some terminal =>
    let cache' :=
      match terminal.container_id with
      | some cid =>
        if cid ≠ "" ∧ (callback.cpu_percent.isSome ∨ callback.memory_mb.isSome) then
          update_container_stats cache cid (callback.cpu_percent.getD 0)
            (callback.memory_mb.getD 0) (callback.memory_percent.getD 0) now
        else cache
      | none => cache
    .ok (db, cache')

/-- `report_idle_shutdown` (`POST /callbacks/idle`): after
authentication and lookup, a record already `Stopped`/`Expired`/`Failed`
is a success-no-op; otherwise stop the backing container (a raised stop
error aborts with HTTP 500 before the record is written; the argument
`stop` is the outcome of `stop_terminal_container`, whose returned Bool
is ignored) and set `status = Stopped`. -/
def report_idle_shutdown (hmac : String → String → String) (secret : String)
    (stop : String → Except String Bool) (db : List Terminal)
    (callback : TerminalCallbackRequest) (authorization : Option String) :
    Except Nat (List Terminal) := do
  let _ ← verify_callback_authentication hmac secret callback authorization
  match findTerminal db callback.terminal_id with
  | none => .error 404
  | some terminal =>
    if terminal.status = .stopped ∨ terminal.status = .expired ∨
        terminal.status = .failed then
      .ok db
    else
      match terminal.container_id with
      | some cid =>
        match stop cid with
        | .error _ => .error 500
        | .ok _ =>
          .ok (updateTerminal db callback.terminal_id (fun t =>
            { t with status := .stopped }))
      | none =>
        .ok (updateTerminal db callback.terminal_id (fun t =>
          { t with status := .stopped }))

/-- The outcome of one attempt of the readiness poll in
`_poll_container_status` (`terminals.py`): `failure` covers a raised
HTTP exception or a non-200 response; `ok` carries the 200 body's
`tunnel_url` and `status` fields (`data.get`, hence optional). -/
inductive PollResponse where
  | failure
  | ok (tunnel_url : Option String) (container_status : Option String)
deriving DecidableEq, Repr

/-- The readiness condition of one poll attempt: the source's
`if tunnel_url and container_status == "ready"` — a truthy (non-empty)
`tunnel_url` together with `status == "ready"`; returns the URL that
would be recorded. -/
def readyUrl : PollResponse → Option String
  | .failure => none
  | .ok tunnel_url container_status =>
    match tunnel_url with
    | some url =>
      if url ≠ "" ∧ container_status = some "ready" then some url else none
    | none => none

/-- `_poll_container_status` from `terminals.py`: one attempt per
element of `responses` (the attempt budget is its length; the
2-second inter-attempt sleep has no functional content).  On the first
ready attempt, write `tunnel_url` and `status = Started` to the record
(when it still exists) and return `True`; if the budget is exhausted
without success, return `False`.  The loop never reads the record's
current status. -/
def _poll_container_status (db : List Terminal) (terminal_id : String) :
    List PollResponse → List Terminal × Bool
  | [] => (db, false)
  | r :: rest =>
    match readyUrl r with
    | some url =>
      match findTerminal db terminal_id with
      | some _ =>
        (updateTerminal db terminal_id (fun t =>
          { t with tunnel_url := some url, status := .started }), true)
      | none => _poll_container_status db terminal_id rest
    | none => _poll_container_status db terminal_id rest

/-- The tail of `_create_terminal_background` after the container is
created: run the readiness poll and, when it reports failure, re-load
the record and mark it `Failed` with the fixed error message. -/
def _poll_and_finalize (db : List Terminal) (terminal_id : String)
    (responses : List PollResponse) : List Terminal :=
  let r := _poll_container_status db terminal_id responses
  if r.2 then r.1
  else
    updateTerminal r.1 terminal_id (fun t =>
      { t with status := .failed,
               error_message := some "Failed to obtain tunnel URL from container" })

/-- The value returned by the Container Driver's
`create_terminal_container` on success. -/
structure CreateResult where
  container_id : String
  container_name : String
  host_port : Option String := none
deriving DecidableEq, Repr

/-- `_create_terminal_background` from `terminals.py`: load the record
(absent: log and abort); set `status = Starting`; create the container
(`createResult` is the call's outcome — an exception marks the record
`Failed` with the exception text); persist the container fields; then
poll for readiness and finalize. -/
def _create_terminal_background (db : List Terminal) (terminal_id : String)
    (createResult : Except String CreateResult)
    (responses : List PollResponse) : List Terminal :=
  match findTerminal db terminal_id with
  | none => db
  | some _ =>
    let db1 := updateTerminal db terminal_id (fun t => { t with status := .starting })
    match createResult with
    | .error e =>
      updateTerminal db1 terminal_id (fun t =>
        { t with status := .failed, error_message := some e })
    | .ok result =>
      let db2 := updateTerminal db1 terminal_id (fun t =>
        { t with container_id := some result.container_id,
                 container_name := some result.container_name,
                 host_port := result.host_port })
      _poll_and_finalize db2 terminal_id responses

/-- `create_terminal` (`POST /terminals`) from `terminals.py`: build a
fresh record with the caller's guest id, `expires_at = now + TTL` and
`status = Pending`, insert it, and schedule the background provisioning
task.  The source performs no capacity check of any kind before the
insert.  Returns the new store contents and the created record. -/
def create_terminal (db : List Terminal) (new_id : String)
    (x_guest_id : Option String) (now ttl : Int) : List Terminal × Terminal :=
  let terminal : Terminal :=
    ({ id := new_id, user_id := x_guest_id, status := .pending,
       created_at := now } : Terminal).set_expiry now ttl
  (db ++ [terminal], terminal)

/-- The filter portion of `list_terminals` (`GET /terminals`): scope to
the guest id when the header is truthy, filter by status when given,
and exclude soft-deleted records.  The route then orders the result
newest-first and paginates with `skip`/`limit`; `total` is the length
of this unpaginated query result.  No claim depends on the ordering or
the pagination. -/
def list_terminals_query (db : List Terminal) (x_guest_id : Option String)
    (status_filter : Option TerminalStatus) : List Terminal :=
  db.filter (fun t =>
    (match x_guest_id with
     | some g => (g == "") || (t.user_id == some g)
     | none => true)
    && (match status_filter with
        | some s => t.status == s
        | none => true)
    && (t.deleted_at == none))

/-- `delete_terminal` (`DELETE /terminals/x`) from `terminals.py`:
load the record (404 when absent), set `status = Stopped` and commit;
then, when the record has a `container_id`, schedule a background task
that deletes the container and swallows any deletion failure.  The
second component is the container id handed to that background task,
whose outcome cannot affect the already-committed record update.
The source never writes `deleted_at`. -/
def delete_terminal (db : List Terminal) (terminal_id : String) :
    Except Nat (List Terminal × Option String) :=
  match findTerminal db terminal_id with
  | none => .error 404
  | some terminal =>
    .ok (updateTerminal db terminal_id (fun t => { t with status := .stopped }),
      terminal.container_id)

/-- Modelled from the spec: the restart endpoint `start_terminal`
(`POST /terminals/x/start`) is absent from `src/`; only its unit tests
(`tests/test_stopped_terminals.py`) reference it.  Following spec §4.2
and the tests: load the record (404 when absent); a record whose status
is not `Stopped` is an error; an expired record is an error; otherwise
set `status = Pending`, clear `error_message`, and schedule the
provisioning workflow with `restart=true` (the Bool in the result).
No record-store capacity check is performed. -/
def start_terminal (db : List Terminal) (terminal_id : String) (now : Int) :
    Except Nat (List Terminal × Bool) :=
  match findTerminal db terminal_id with
  | none => .error 404
  | some terminal =>
    if terminal.status ≠ .stopped then .error 400
    else if terminal.is_expired now then .error 400
    else
      .ok (updateTerminal db terminal_id (fun t =>
        { t with status := .pending, error_message := none }), true)

/-- The selection predicate of the expiry pass
(`CleanupService.cleanup_expired_terminals`): `expires_at < now` (a
null `expires_at` never compares below `now` in SQL) and status in
{Started, Starting, Pending, Stopped}.  The query has no `deleted_at`
filter. -/
def expirySelected (now : Int) (t : Terminal) : Bool :=
  (match t.expires_at with
   | some e => decide (e < now)
   | none => false)
  && (t.status == .started || t.status == .starting ||
      t.status == .pending || t.status == .stopped)

/-- `CleanupService._cleanup_terminal`: best-effort delete the backing
container when the record has one — the call's outcome (`del`, the
result of `delete_terminal_container`, which may raise) is caught and
logged and cannot affect what follows — then set `status = Expired` and
`deleted_at = now` and commit. -/
def _cleanup_terminal (del : String → Except String Bool) (t : Terminal)
    (now : Int) : Terminal :=
  let _ := match t.container_id with
    | some cid => some (del cid)
    | none => none
  { t with status := .expired, deleted_at := some now }

/-- `CleanupService.cleanup_expired_terminals`: query the selected
records as a snapshot, then process each in turn, each processed record
being written back under its primary key; a failure on one record is
caught and the loop continues with the rest. -/
def cleanup_expired_terminals (del : String → Except String Bool)
    (db : List Terminal) (now : Int) : List Terminal :=
  let expired_terminals := db.filter (fun t => expirySelected now t)
  expired_terminals.foldl
    (fun acc t => updateTerminal acc t.id (fun _ => _cleanup_terminal del t now))
    db

/-- `DockerCLIService.create_terminal_container` (and identically
`DockerContainerService`/`KubernetesContainerService`): first compare
the driver's active count against `MAX_CONTAINERS_PER_SERVER` and raise
when `active_count >= limit`; only then run the platform creation,
whose outcome is `creation`.  This check runs inside the background
provisioning workflow, not on the request path. -/
def create_terminal_container (active_count max_containers : Nat)
    (creation : Except String CreateResult) : Except String CreateResult :=
  if active_count ≥ max_containers then
    .error ("Max container limit reached (" ++ toString max_containers ++ ")")
  else creation

/-- `DockerContainerService.count_active_containers`: the length of the
SDK's filtered container listing, and 0 when the SDK call raises. -/
def count_active_containers_docker (containers : Except String (List String)) : Nat :=
  match containers with
  | .error _ => 0
  | .ok cs => cs.length

/-- The result of a `subprocess.run` invocation of the `docker` CLI. -/
structure SubprocessResult where
  returncode : Int
  stdout : String
deriving DecidableEq, Repr

/-- `DockerCLIService.count_active_containers`: on a zero return code,
count the newline-separated container ids of the trimmed output (0 when
empty); on a non-zero return code, log and return 0; on a raised
exception, return 0. -/
def count_active_containers_cli (result : Except String SubprocessResult) : Nat :=
  match result with
  | .error _ => 0
  | .ok r =>
    if r.returncode = 0 then
      let output := r.stdout.trim
      if output = "" then 0 else (output.splitOn "\n").length
    else 0

/-- `KubernetesContainerService.count_active_containers`: the length of
the filtered pod listing, and 0 when the API call raises. -/
def count_active_pods_k8s (pods : Except String (List String)) : Nat :=
  match pods with
  | .error _ => 0
  | .ok ps => ps.length

/-- C7: the idle predicate is true iff `now` minus (`last_activity_at`
falling back to `created_at`) strictly exceeds the idle timeout; with a
60-minute timeout, activity 59 minutes ago is not idle, activity 61
minutes ago is idle, and no recorded activity with creation 61 minutes
ago is idle. -/
theorem is_idle_iff_inactivity_exceeds_timeout :
    (∀ (t : Terminal) (now timeout : Int),
        t.is_idle now timeout = true ↔
          now - (t.last_activity_at.getD t.created_at) > timeout)
    ∧ Terminal.is_idle { last_activity_at := some (1000 - 59) } 1000 60 = false
    ∧ Terminal.is_idle { last_activity_at := some (1000 - 61) } 1000 60 = true
    ∧ Terminal.is_idle { last_activity_at := none, created_at := 1000 - 61 } 1000 60 = true := by
  refine ⟨fun t now timeout => ?_, by decide, by decide, by decide⟩
  simp only [Terminal.is_idle, decide_eq_true_eq]
  omega

/-- C10: every Container Driver implementation returns 0 from its
active-count operation when the underlying runtime query fails or
raises (Docker SDK, Docker CLI — including a non-zero exit code — and
Kubernetes), so the driver-side capacity check sees an empty platform
and container creation proceeds unimpeded by the ceiling. -/
theorem count_active_zero_on_driver_failure :
    (∀ e : String, count_active_containers_docker (.error e) = 0)
    ∧ (∀ e : String, count_active_containers_cli (.error e) = 0)
    ∧ (∀ r : SubprocessResult, r.returncode ≠ 0 →
        count_active_containers_cli (.ok r) = 0)
    ∧ (∀ e : String, count_active_pods_k8s (.error e) = 0)
    ∧ (∀ (max_containers : Nat) (creation : Except String CreateResult),
        0 < max_containers →
        create_terminal_container 0 max_containers creation = creation) := by
  refine ⟨fun _ => rfl, fun _ => rfl, fun r hr => ?_, fun _ => rfl,
    fun m c hm => ?_⟩
  · simp [count_active_containers_cli, hr]
  · have h : ¬ (0 ≥ m) := by omega
    simp [create_terminal_container, h]

/-- Witness for C10 at concrete inputs: a failed CLI invocation counts
as zero, and a creation attempt with count zero passes the default
ceiling of 240. -/
theorem count_active_zero_on_driver_failure_witness :
    count_active_containers_cli (.ok { returncode := 1, stdout := "" }) = 0
    ∧ create_terminal_container 0 240 (.error "docker daemon down") =
        .error "docker daemon down" :=
  ⟨count_active_zero_on_driver_failure.2.2.1 { returncode := 1, stdout := "" }
      (by decide),
    count_active_zero_on_driver_failure.2.2.2.2 240 (.error "docker daemon down")
      (by decide)⟩

/-- The store-side active-record count described by the spec (§4.1):
non-deleted records with status in {Pending, Starting, Started}.  The
source `create_terminal` computes no such count; this definition only
serves to exhibit the configuration on which the claimed admission
check should have fired. -/
def activeRecordCount (db : List Terminal) : Nat :=
  (db.filter (fun t =>
    (t.status == .pending || t.status == .starting || t.status == .started)
    && (t.deleted_at == none))).length

/-- A store holding the default ceiling's worth (240, the default
`MAX_CONTAINERS_PER_SERVER`) of active records. -/
def dbAtCeiling : List Terminal :=
  List.replicate 240 { id := "t", status := .started }

set_option maxRecDepth 8000 in
/-- C1 (code-bug evidence): `create_terminal` performs no capacity
check before inserting — with the store already holding 240 active
records (the default ceiling), the request still appends a fresh
Pending record unconditionally.  The only ceiling comparison in the
source lives in `create_terminal_container`, which runs afterwards in
the background workflow; `tests/test_container_limits.py` instead
expects a 503 from `create_terminal` itself with no record created. -/
theorem create_terminal_inserts_even_at_ceiling :
    activeRecordCount dbAtCeiling = 240
    ∧ (∀ (db : List Terminal) (new_id : String) (g : Option String) (now ttl : Int),
        (create_terminal db new_id g now ttl).1 =
          db ++ [{ id := new_id, user_id := g, status := .pending,
                   created_at := now, expires_at := some (now + ttl) }])
    ∧ (create_terminal dbAtCeiling "fresh" none 0 24).2.status = .pending
    ∧ (create_terminal dbAtCeiling "fresh" none 0 24).1.length = 241 :=
  ⟨by decide, fun _ _ _ _ _ => rfl, rfl, by decide⟩

/-- Bind on an `Except` error short-circuits. -/
theorem error_bind_eq {ε α β : Type} (e : ε) (f : α → Except ε β) :
    (Except.error e >>= f : Except ε β) = Except.error e := rfl

/-- Bind on an `Except` success applies the continuation. -/
theorem ok_bind_eq {ε α β : Type} (a : α) (f : α → Except ε β) :
    (Except.ok a >>= f : Except ε β) = f a := rfl

/-- C5: every callback endpoint accepts a request only when it carries
a bearer token equal to the HMAC of `"callback:" + terminal_id` under
the server secret (compared by `hmac.compare_digest`); a missing or
mismatched token yields a 401 before any record (or cache) mutation; a
token generated for terminal `A` fails verification for a terminal `B`
with a distinct HMAC value, and any token other than the expected one —
in particular one altered in a single character — fails verification. -/
theorem callback_auth_required_and_scoped :
    ∀ (hmac : String → String → String) (secret : String),
    (∀ (db : List Terminal) (cache : StatsCache) (cb : TerminalCallbackRequest)
       (auth : Option String) (e : Nat) (now : Int)
       (stop : String → Except String Bool),
        verify_callback_authentication hmac secret cb auth = .error e →
        report_tunnel_url hmac secret db cb auth = .error e
        ∧ report_status hmac secret db cb auth = .error e
        ∧ container_health_check hmac secret now db cb auth = .error e
        ∧ report_stats hmac secret now db cache cb auth = .error e
        ∧ report_idle_shutdown hmac secret stop db cb auth = .error e)
    ∧ (∀ (cb : TerminalCallbackRequest) (auth : Option String),
        verify_callback_authentication hmac secret cb auth = .ok () →
        extract_bearer_token auth =
          some (generate_callback_token hmac secret cb.terminal_id)
        ∧ cb.terminal_id ≠ "")
    ∧ (∀ cb : TerminalCallbackRequest,
        verify_callback_authentication hmac secret cb none = .error 401)
    ∧ (∀ A B : String,
        generate_callback_token hmac secret A ≠ generate_callback_token hmac secret B →
        verify_callback_token hmac secret B
          (generate_callback_token hmac secret A) = false)
    ∧ (∀ (A token : String),
        token ≠ generate_callback_token hmac secret A →
        verify_callback_token hmac secret A token = false) := by
  intro hmac secret
  refine ⟨?_, ?_, ?_, ?_, ?_⟩
  · intro db cache cb auth e now stop h
    refine ⟨?_, ?_, ?_, ?_, ?_⟩ <;>
      simp [report_tunnel_url, report_status, container_health_check,
        report_stats, report_idle_shutdown, h, error_bind_eq]
  · intro cb auth h
    unfold verify_callback_authentication at h
    cases hex : extract_bearer_token auth with
    | none => simp [hex] at h
    | some token =>
      simp only [hex] at h
      by_cases hv : verify_callback_token hmac secret cb.terminal_id token = true
      · have hv' := hv
        unfold verify_callback_token at hv'
        by_cases hcond : cb.terminal_id = "" ∨ token = ""
        · rw [if_pos hcond] at hv'
          exact absurd hv' (by simp)
        · rw [if_neg hcond] at hv'
          have htok : token = generate_callback_token hmac secret cb.terminal_id :=
            beq_iff_eq.mp hv'
          push_neg at hcond
          refine ⟨?_, hcond.1⟩
          rw [htok]
      · rw [if_neg hv] at h
        exact absurd h (by simp)
  · intro cb
    rfl
  · intro A B hne
    unfold verify_callback_token
    by_cases h : B = "" ∨ generate_callback_token hmac secret A = ""
    · rw [if_pos h]
    · rw [if_neg h]
      exact beq_eq_false_iff_ne.mpr hne
  · intro A token hne
    unfold verify_callback_token
    by_cases h : A = "" ∨ token = ""
    · rw [if_pos h]
    · rw [if_neg h]
      exact beq_eq_false_iff_ne.mpr hne

/-- A concrete stand-in for the HMAC primitive, used only to apply
theorems at concrete inputs. -/
def hmacW : String → String → String :=
  fun secret message => secret ++ "|" ++ message

/-- Witness for C5 at concrete inputs: with a concrete HMAC function
and secret, a request with no Authorization header is rejected by every
endpoint with 401 and no store is returned; the token generated for
terminal `"A"` fails verification for terminal `"B"`; and the correct
token for `"A"` with one altered character fails verification. -/
theorem callback_auth_required_and_scoped_witness :
    report_tunnel_url hmacW "k" [] { terminal_id := "A" } none = .error 401
    ∧ report_stats hmacW "k" 0 [] [] { terminal_id := "A" } none = .error 401
    ∧ verify_callback_token hmacW "k" "B"
        (generate_callback_token hmacW "k" "A") = false
    ∧ verify_callback_token hmacW "k" "A" "k|callback:B" = false := by
  have h := callback_auth_required_and_scoped hmacW "k"
  have h1 := h.1 [] [] { terminal_id := "A" } none 401 0 (fun _ => .ok true)
    (h.2.2.1 { terminal_id := "A" })
  exact ⟨h1.1, h1.2.2.2.1,
    h.2.2.2.1 "A" "B" (by decide),
    h.2.2.2.2 "A" "k|callback:B" (by decide)⟩

/-- Pointwise-equal update functions give the same point update. -/
theorem updateTerminal_congr (db : List Terminal) (i : String)
    (f g : Terminal → Terminal) (h : ∀ t, f t = g t) :
    updateTerminal db i f = updateTerminal db i g := by
  simp only [updateTerminal]
  apply List.map_congr_left
  intro a _
  by_cases hc : (a.id == i) = true
  · rw [if_pos hc, if_pos hc, h a]
  · rw [if_neg hc, if_neg hc]

/-- C8: `report_tunnel` is idempotent — a successful call sets
`tunnel_url` to the reported URL and `status = Started`, and repeating
the identical call on the resulting store succeeds and leaves the
store unchanged. -/
theorem report_tunnel_idempotent :
    ∀ (hmac : String → String → String) (secret : String) (db : List Terminal)
      (cb : TerminalCallbackRequest) (auth : Option String) (db' : List Terminal),
      report_tunnel_url hmac secret db cb auth = .ok db' →
      report_tunnel_url hmac secret db' cb auth = .ok db' := by
  intro hmac secret db cb auth db' h
  unfold report_tunnel_url at h ⊢
  cases hv : verify_callback_authentication hmac secret cb auth with
  | error e =>
    rw [hv] at h
    simp [error_bind_eq] at h
  | ok u =>
    rw [hv] at h
    cases u
    simp only [ok_bind_eq] at h ⊢
    cases hf : findTerminal db cb.terminal_id with
    | none =>
      rw [hf] at h
      exact absurd h (by simp)
    | some t =>
      rw [hf] at h
      simp only [Except.ok.injEq] at h
      subst h
      rw [findTerminal_updateTerminal_self db cb.terminal_id
        (fun t => { t with tunnel_url := cb.tunnel_url, status := .started })
        (fun _ => rfl), hf, Option.map_some']
      rw [updateTerminal_updateTerminal db cb.terminal_id
        (fun t => { t with tunnel_url := cb.tunnel_url, status := .started })
        (fun t => { t with tunnel_url := cb.tunnel_url, status := .started })
        (fun _ => rfl)]

/-- Witness for C8: a concrete successful tunnel callback, repeated
with the identical payload, leaves the store at the same final state. -/
theorem report_tunnel_idempotent_witness :
    report_tunnel_url hmacW "k" [{ id := "t1", status := .starting }]
        { terminal_id := "t1", tunnel_url := some "https://x" }
        (some "Bearer k|callback:t1") =
      .ok [{ id := "t1", status := .started, tunnel_url := some "https://x" }]
    ∧ report_tunnel_url hmacW "k"
        [{ id := "t1", status := .started, tunnel_url := some "https://x" }]
        { terminal_id := "t1", tunnel_url := some "https://x" }
        (some "Bearer k|callback:t1") =
      .ok [{ id := "t1", status := .started, tunnel_url := some "https://x" }] :=
  ⟨by rfl,
    report_tunnel_idempotent hmacW "k" [{ id := "t1", status := .starting }]
      { terminal_id := "t1", tunnel_url := some "https://x" }
      (some "Bearer k|callback:t1")
      [{ id := "t1", status := .started, tunnel_url := some "https://x" }]
      (by rfl)⟩

/-- C9: the health callback sets `last_activity_at` to the current
time and changes nothing else (the store is exactly the point update of
that one field; records with other ids are untouched, the target record
keeps all its other fields); the stats callback leaves the persisted
store unchanged — in particular it never touches `last_activity_at` —
and writes only to the in-memory cache, keyed by the record's
container reference. -/
theorem health_updates_activity_stats_leave_record :
    ∀ (hmac : String → String → String) (secret : String) (now : Int)
      (db : List Terminal) (cache : StatsCache) (cb : TerminalCallbackRequest)
      (auth : Option String),
    (∀ db', container_health_check hmac secret now db cb auth = .ok db' →
       db' = updateTerminal db cb.terminal_id
           (fun t => { t with last_activity_at := some now })
       ∧ (∀ t ∈ db, t.id ≠ cb.terminal_id → t ∈ db')
       ∧ (∀ t ∈ db, t.id = cb.terminal_id →
            { t with last_activity_at := some now } ∈ db'))
    ∧ (∀ db' cache',
        report_stats hmac secret now db cache cb auth = .ok (db', cache') →
        db' = db
        ∧ (cache' = cache ∨
            ∃ t cid, findTerminal db cb.terminal_id = some t
              ∧ t.container_id = some cid
              ∧ cache' = update_container_stats cache cid
                  (cb.cpu_percent.getD 0) (cb.memory_mb.getD 0)
                  (cb.memory_percent.getD 0) now)) := by
  intro hmac secret now db cache cb auth
  constructor
  · intro db' h
    unfold container_health_check at h
    cases hv : verify_callback_authentication hmac secret cb auth with
    | error e =>
      rw [hv] at h
      simp [error_bind_eq] at h
    | ok u =>
      rw [hv] at h
      cases u
      simp only [ok_bind_eq] at h
      cases hf : findTerminal db cb.terminal_id with
      | none =>
        rw [hf] at h
        exact absurd h (by simp)
      | some t =>
        rw [hf] at h
        simp only [Except.ok.injEq] at h
        subst h
        refine ⟨rfl, ?_, ?_⟩
        · intro s hs hne
          exact mem_updateTerminal_of_ne db cb.terminal_id _ s hs hne
        · intro s hs heq
          exact mem_updateTerminal_of_eq db cb.terminal_id _ s hs heq
  · intro db' cache' h
    unfold report_stats at h
    cases hv : verify_callback_authentication hmac secret cb auth with
    | error e =>
      rw [hv] at h
      simp [error_bind_eq] at h
    | ok u =>
      rw [hv] at h
      cases u
      simp only [ok_bind_eq] at h
      cases hf : findTerminal db cb.terminal_id with
      | none =>
        rw [hf] at h
        exact absurd h (by simp)
      | some t =>
        rw [hf] at h
        simp only [Except.ok.injEq, Prod.mk.injEq] at h
        obtain ⟨hdb, hcache⟩ := h
        refine ⟨hdb.symm, ?_⟩
        cases hcid : t.container_id with
        | none =>
          simp only [hcid] at hcache
          exact Or.inl hcache.symm
        | some cid =>
          simp only [hcid] at hcache
          by_cases hc : cid ≠ "" ∧ (cb.cpu_percent.isSome ∨ cb.memory_mb.isSome)
          · rw [if_pos hc] at hcache
            exact Or.inr ⟨t, cid, rfl, hcid, hcache.symm⟩
          · rw [if_neg hc] at hcache
            exact Or.inl hcache.symm

/-- A concrete Started record with a container, used to apply theorems
at concrete inputs. -/
def t9 : Terminal :=
  { id := "t1", status := .started, container_id := some "c9",
    last_activity_at := some 5 }

/-- A concrete stats payload carrying only `cpu_percent`. -/
def cb9 : TerminalCallbackRequest :=
  { terminal_id := "t1", cpu_percent := some 50 }

/-- The matching bearer header for `t9` under `hmacW` and secret `"k"`. -/
def auth9 : Option String := some "Bearer k|callback:t1"

/-- The cache produced by one concrete stats report for `t9`. -/
def cache9 : StatsCache := update_container_stats [] "c9" 50 0 0 100

/-- Witness for C9: at a concrete store, payload and valid token, the
health callback's result is exactly the point update of
`last_activity_at`, and the stats callback leaves the store equal to
itself while its cache is keyed by the record's container id. -/
theorem health_updates_activity_stats_leave_record_witness :
    ([{ t9 with last_activity_at := some 100 }] : List Terminal) =
      updateTerminal [t9] cb9.terminal_id
        (fun t => { t with last_activity_at := some 100 })
    ∧ ([t9] : List Terminal) = [t9]
    ∧ (cache9 = ([] : StatsCache) ∨
        ∃ t cid, findTerminal [t9] cb9.terminal_id = some t
          ∧ t.container_id = some cid
          ∧ cache9 = update_container_stats [] cid
              (cb9.cpu_percent.getD 0) (cb9.memory_mb.getD 0)
              (cb9.memory_percent.getD 0) 100) := by
  have h := health_updates_activity_stats_leave_record hmacW "k" 100 [t9] [] cb9 auth9
  have h1 := h.1 [{ t9 with last_activity_at := some 100 }] (by rfl)
  have h2 := h.2 [t9] cache9 (by rfl)
  exact ⟨h1.1, h2.1, h2.2⟩

/-- When no attempt observes readiness, the poll loop leaves the store
untouched and reports failure. -/
theorem poll_no_ready_attempt (db : List Terminal) (tid : String)
    (rs : List PollResponse) (h : ∀ r ∈ rs, readyUrl r = none) :
    _poll_container_status db tid rs = (db, false) := by
  induction rs with
  | nil => rfl
  | cons r rest ih =>
    have hr : readyUrl r = none := h r (List.mem_cons_self r rest)
    simp only [_poll_container_status, hr]
    exact ih (fun x hx => h x (List.mem_cons_of_mem r hx))

/-- C2 amended: the poll loop never consults the record's status and so
cannot detect an already-`Started` record; when none of its own
attempts observes readiness, exhaustion of the attempt budget sets
`status = Failed` with the fixed error message on the record whatever
its current status — in particular on a record a concurrent tunnel
callback has already set to `Started`. -/
theorem poll_exhaustion_overwrites_started (db : List Terminal) (tid : String)
    (rs : List PollResponse) (t : Terminal)
    (hfind : findTerminal db tid = some t)
    (hnr : ∀ r ∈ rs, readyUrl r = none) :
    findTerminal (_poll_and_finalize db tid rs) tid =
      some { t with status := .failed,
                    error_message := some "Failed to obtain tunnel URL from container" } := by
  unfold _poll_and_finalize
  rw [poll_no_ready_attempt db tid rs hnr]
  simp only [if_neg Bool.false_ne_true]
  rw [findTerminal_updateTerminal_self db tid
    (fun t => { t with
                status := .failed,
                error_message := some "Failed to obtain tunnel URL from container" })
    (fun _ => rfl), hfind, Option.map_some']

/-- Witness for the amended C2 at a concrete input: a `Started` record
(with the tunnel URL the callback reported) whose single poll attempt
fails ends `Failed`. -/
theorem poll_exhaustion_overwrites_started_witness :
    findTerminal
      (_poll_and_finalize
        [{ id := "t1", status := .started, tunnel_url := some "https://cb.example" }]
        "t1" [.failure]) "t1" =
      some { id := "t1", status := .failed, tunnel_url := some "https://cb.example",
             error_message := some "Failed to obtain tunnel URL from container" } :=
  poll_exhaustion_overwrites_started
    [{ id := "t1", status := .started, tunnel_url := some "https://cb.example" }]
    "t1" [.failure]
    { id := "t1", status := .started, tunnel_url := some "https://cb.example" }
    (by rfl) (by intro r hr; cases hr with
      | head => rfl
      | tail _ h => cases h)

/-- C2 counterexample: the claim says exhaustion of the poll budget
never sets `Failed` on a record that is already `Started`; here a
record that is `Started` (tunnel URL reported by the callback) is
overwritten to `Failed` when the poll loop's only attempt fails. -/
theorem poll_budget_downgrades_started :
    ({ id := "t1", status := .started,
       tunnel_url := some "https://cb.example" } : Terminal).status = .started
    ∧ _poll_and_finalize
        [{ id := "t1", status := .started, tunnel_url := some "https://cb.example" }]
        "t1" [.failure] =
      [{ id := "t1", status := .failed, tunnel_url := some "https://cb.example",
         error_message := some "Failed to obtain tunnel URL from container" }] :=
  ⟨rfl, rfl⟩

/-- A concrete running terminal with a backing container. -/
def tc3 : Terminal := { id := "d1", status := .started, container_id := some "c1" }

/-- C3 counterexample: deleting an existing terminal sets only
`status = Stopped`; `deleted_at` stays null and the record still
appears in the default listing afterwards, so the delete is not a
soft-delete. -/
theorem delete_terminal_does_not_soft_delete :
    delete_terminal [tc3] "d1" =
      .ok ([{ tc3 with status := .stopped }], some "c1")
    ∧ ({ tc3 with status := .stopped } : Terminal).deleted_at = none
    ∧ list_terminals_query [{ tc3 with status := .stopped }] none none =
        [{ tc3 with status := .stopped }] :=
  ⟨rfl, rfl, rfl⟩

/-- C3 amended: for every existing terminal, the client delete sets
`status = Stopped` and commits — it does not write `deleted_at`, so a
record that was not already soft-deleted remains in the default
listing — and hands the record's container id to a background
best-effort deletion task whose outcome cannot affect the committed
record update. -/
theorem delete_marks_stopped_keeps_record_listed :
    ∀ (db : List Terminal) (tid : String) (t : Terminal),
      findTerminal db tid = some t →
      ∃ db', delete_terminal db tid = .ok (db', t.container_id)
        ∧ findTerminal db' tid = some { t with status := .stopped }
        ∧ ({ t with status := .stopped } : Terminal).deleted_at = t.deleted_at
        ∧ (t.deleted_at = none →
            { t with status := .stopped } ∈ list_terminals_query db' none none) := by
  intro db tid t hf
  refine ⟨updateTerminal db tid (fun u => { u with status := .stopped }),
    ?_, ?_, rfl, ?_⟩
  · unfold delete_terminal
    rw [hf]
  · rw [findTerminal_updateTerminal_self db tid
      (fun u => { u with status := .stopped }) (fun _ => rfl), hf, Option.map_some']
  · intro hdel
    have hfind2 : List.find? (fun u => u.id == tid) db = some t := hf
    have hq := List.find?_some hfind2
    have htid : t.id = tid := beq_iff_eq.mp hq
    have htdb : t ∈ db := List.mem_of_find?_eq_some hfind2
    have hmem := mem_updateTerminal_of_eq db tid
      (fun u => { u with status := .stopped }) t htdb htid
    unfold list_terminals_query
    refine List.mem_filter.mpr ⟨hmem, ?_⟩
    simp [hdel]

/-- Witness for the amended C3 at a concrete input: deleting the
concrete terminal succeeds, schedules deletion of its container, and
the stopped record is still returned by the default listing. -/
theorem delete_marks_stopped_keeps_record_listed_witness :
    ∃ db', delete_terminal [tc3] "d1" = .ok (db', some "c1")
      ∧ { tc3 with status := .stopped } ∈ list_terminals_query db' none none := by
  obtain ⟨db', h1, h2, h3, h4⟩ :=
    delete_marks_stopped_keeps_record_listed [tc3] "d1" tc3 (by rfl)
  exact ⟨db', by rw [h1]; rfl, h4 (by rfl)⟩

/-- A point update by a key-preserving, field-preserving function
leaves every record's view of that field unchanged. -/
theorem findTerminal_updateTerminal_map_field {β : Type}
    (db : List Terminal) (i j : String) (f : Terminal → Terminal)
    (field : Terminal → β) (hf : ∀ t, (f t).id = t.id)
    (hfield : ∀ t, field (f t) = field t) :
    (findTerminal (updateTerminal db i f) j).map field =
      (findTerminal db j).map field := by
  by_cases hij : i = j
  · subst hij
    rw [findTerminal_updateTerminal_self db i f hf]
    cases findTerminal db i with
    | none => rfl
    | some t => simp [hfield]
  · rw [findTerminal_updateTerminal_other db i j f hf hij]

/-- The readiness poll loop never changes any record's `container_id`. -/
theorem poll_preserves_container_id (rs : List PollResponse)
    (db : List Terminal) (tid j : String) :
    (findTerminal (_poll_container_status db tid rs).1 j).map Terminal.container_id =
      (findTerminal db j).map Terminal.container_id := by
  induction rs generalizing db with
  | nil => rfl
  | cons r rest ih =>
    cases hr : readyUrl r with
    | some url =>
      cases hfd : findTerminal db tid with
      | some t =>
        simp only [_poll_container_status, hr, hfd]
        exact findTerminal_updateTerminal_map_field db tid j _
          Terminal.container_id (fun _ => rfl) (fun _ => rfl)
      | none =>
        simp only [_poll_container_status, hr, hfd]
        exact ih db
    | none =>
      simp only [_poll_container_status, hr]
      exact ih db

/-- The poll-and-finalize phase never changes any record's
`container_id`. -/
theorem poll_and_finalize_preserves_container_id (db : List Terminal)
    (tid j : String) (rs : List PollResponse) :
    (findTerminal (_poll_and_finalize db tid rs) j).map Terminal.container_id =
      (findTerminal db j).map Terminal.container_id := by
  unfold _poll_and_finalize
  by_cases hb : (_poll_container_status db tid rs).2 = true
  · rw [if_pos hb]
    exact poll_preserves_container_id rs db tid j
  · rw [if_neg hb]
    rw [findTerminal_updateTerminal_map_field (_poll_container_status db tid rs).1
      tid j
      (fun t => { t with
                  status := .failed,
                  error_message := some "Failed to obtain tunnel URL from container" })
      Terminal.container_id (fun _ => rfl) (fun _ => rfl)]
    exact poll_preserves_container_id rs db tid j

/-- C4 (modelled from the spec; see `start_terminal`): restarting a
`Stopped`, non-expired terminal succeeds for every store contents — so
no record-store capacity check is involved — re-using the same record
id, setting it back to `Pending` (and clearing `error_message`), and
scheduling provisioning with `restart=true` (the Bool in the result);
restarting a record whose status is not `Stopped` is an error; the
re-entered workflow re-checks container-driver capacity inside
`create_terminal_container`; and a successful re-provisioning stores
the driver's newly returned container reference on the record. -/
theorem restart_stopped_terminal_spec :
    (∀ (db : List Terminal) (tid : String) (now : Int) (t : Terminal),
        findTerminal db tid = some t → t.status = .stopped →
        t.is_expired now = false →
        start_terminal db tid now =
          .ok (updateTerminal db tid (fun u =>
            { u with status := .pending, error_message := none }), true)
        ∧ findTerminal (updateTerminal db tid (fun u =>
            { u with status := .pending, error_message := none })) tid =
            some { t with status := .pending, error_message := none })
    ∧ (∀ (db : List Terminal) (tid : String) (now : Int) (t : Terminal),
        findTerminal db tid = some t → t.status ≠ .stopped →
        start_terminal db tid now = .error 400)
    ∧ (∀ (active_count max_containers : Nat)
         (creation : Except String CreateResult),
        active_count ≥ max_containers →
        create_terminal_container active_count max_containers creation =
          .error ("Max container limit reached (" ++ toString max_containers ++ ")"))
    ∧ (∀ (db db1 : List Terminal) (tid : String) (now : Int)
         (res : CreateResult) (rs : List PollResponse),
        start_terminal db tid now = .ok (db1, true) →
        (findTerminal (_create_terminal_background db1 tid (.ok res) rs) tid).map
            Terminal.container_id = some (some res.container_id)) := by
  refine ⟨?_, ?_, ?_, ?_⟩
  · intro db tid now t hf hs he
    constructor
    · unfold start_terminal
      simp only [hf]
      rw [if_neg (by simp [hs]), if_neg (by simp [he])]
    · rw [findTerminal_updateTerminal_self db tid (fun u =>
        { u with status := .pending, error_message := none })
        (fun _ => rfl), hf, Option.map_some']
  · intro db tid now t hf hs
    unfold start_terminal
    simp only [hf]
    rw [if_pos hs]
  · intro active_count max_containers creation h
    unfold create_terminal_container
    rw [if_pos h]
  · intro db db1 tid now res rs h
    unfold start_terminal at h
    cases hf : findTerminal db tid with
    | none =>
      rw [hf] at h
      exact absurd h (by simp)
    | some t =>
      simp only [hf] at h
      by_cases hs : t.status ≠ .stopped
      · rw [if_pos hs] at h
        exact absurd h (by simp)
      · rw [if_neg hs] at h
        by_cases he : t.is_expired now = true
        · rw [if_pos he] at h
          exact absurd h (by simp)
        · rw [if_neg he] at h
          simp only [Except.ok.injEq, Prod.mk.injEq] at h
          obtain ⟨hdb1, -⟩ := h
          subst hdb1
          have h1 : findTerminal (updateTerminal db tid (fun u =>
              { u with status := .pending, error_message := none })) tid =
              some { t with status := .pending, error_message := none } := by
            rw [findTerminal_updateTerminal_self db tid (fun u =>
              { u with status := .pending, error_message := none })
              (fun _ => rfl), hf, Option.map_some']
          simp only [_create_terminal_background, h1]
          rw [poll_and_finalize_preserves_container_id]
          rw [findTerminal_updateTerminal_self _ tid (fun u =>
            { u with
              container_id := some res.container_id,
              container_name := some res.container_name,
              host_port := res.host_port }) (fun _ => rfl)]
          rw [findTerminal_updateTerminal_self _ tid (fun u =>
            { u with status := .starting }) (fun _ => rfl)]
          rw [h1]
          rfl

/-- A concrete stopped, unexpired terminal holding its old container. -/
def tStop : Terminal :=
  { id := "s1", status := .stopped, container_id := some "oldc",
    expires_at := some 100 }

/-- The driver's creation result for the restarted terminal. -/
def resW : CreateResult :=
  { container_id := "newc", container_name := "terminal-s1" }

/-- Witness for C4 at concrete inputs: restarting the stopped terminal
succeeds with `restart=true`; restarting it once `Started` is a 400; a
driver count at the ceiling fails the re-entered creation; and the
successfully re-provisioned record carries the new container id. -/
theorem restart_stopped_terminal_spec_witness :
    start_terminal [tStop] "s1" 50 =
      .ok (updateTerminal [tStop] "s1" (fun u =>
        { u with status := .pending, error_message := none }), true)
    ∧ start_terminal [{ tStop with status := .started }] "s1" 50 = .error 400
    ∧ create_terminal_container 240 240 (.ok resW) =
        .error ("Max container limit reached (" ++ toString 240 ++ ")")
    ∧ (findTerminal (_create_terminal_background
          (updateTerminal [tStop] "s1" (fun u =>
            { u with status := .pending, error_message := none }))
          "s1" (.ok resW) []) "s1").map Terminal.container_id =
        some (some "newc") := by
  have h := restart_stopped_terminal_spec
  refine ⟨(h.1 [tStop] "s1" 50 tStop (by rfl) (by rfl) (by rfl)).1, ?_, ?_, ?_⟩
  · exact h.2.1 [{ tStop with status := .started }] "s1" 50
      { tStop with status := .started } (by rfl) (by decide)
  · exact h.2.2.1 240 240 (.ok resW) (by decide)
  · exact h.2.2.2 [tStop] (updateTerminal [tStop] "s1" (fun u =>
      { u with status := .pending, error_message := none })) "s1" 50 resW []
      ((h.1 [tStop] "s1" 50 tStop (by rfl) (by rfl) (by rfl)).1)

/-- Folding keyed constant updates (one per selected snapshot) over a
snapshot list with pairwise-distinct ids rewrites each store record
from its unique matching snapshot. -/
theorem foldl_keyed_updates (g : Terminal → Terminal)
    (hg : ∀ t, (g t).id = t.id) :
    ∀ (l acc : List Terminal), (l.map Terminal.id).Nodup →
      l.foldl (fun acc t => updateTerminal acc t.id (fun _ => g t)) acc =
        acc.map (fun u =>
          match l.find? (fun s => s.id == u.id) with
          | some s => g s
          | none => u) := by
  intro l
  induction l with
  | nil =>
    intro acc _
    simp
  | cons t l' ih =>
    intro acc hnd
    rw [List.map_cons, List.nodup_cons] at hnd
    obtain ⟨hnotin, hnd'⟩ := hnd
    rw [List.foldl_cons, ih _ hnd']
    simp only [updateTerminal, List.map_map]
    apply List.map_congr_left
    intro u _
    simp only [Function.comp_apply]
    by_cases hu : (u.id == t.id) = true
    · rw [if_pos hu]
      have htu : (t.id == u.id) = true :=
        beq_iff_eq.mpr (beq_iff_eq.mp hu).symm
      have hfind : l'.find? (fun s => s.id == (g t).id) = none := by
        apply List.find?_eq_none.mpr
        intro x hx hxid
        apply hnotin
        rw [hg t] at hxid
        rw [← beq_iff_eq.mp hxid]
        exact List.mem_map_of_mem Terminal.id hx
      simp only [List.find?_cons, htu, hfind]
    · rw [if_neg hu]
      have hne : ¬ u.id = t.id := fun he => hu (beq_iff_eq.mpr he)
      have htu : (t.id == u.id) = false :=
        beq_eq_false_iff_ne.mpr (fun he => hne he.symm)
      simp only [List.find?_cons, htu]

/-- C6 amended: the expiry pass rewrites exactly the records with
`expires_at < now` and status in {Started, Starting, Pending, Stopped}
(regardless of `deleted_at` — the query has no non-deleted filter),
setting `status = Expired` and `deleted_at = now` on each and leaving
every other record untouched; the container deletion is best-effort
(its outcome `del` cannot influence the result) and records are
processed independently of one another. -/
theorem expiry_pass_processes_exactly_selected
    (del : String → Except String Bool) (db : List Terminal) (now : Int)
    (hids : (db.map Terminal.id).Nodup) :
    cleanup_expired_terminals del db now =
      db.map (fun t => if expirySelected now t then
        { t with status := .expired, deleted_at := some now } else t) := by
  unfold cleanup_expired_terminals
  have hsub : ((db.filter (fun t => expirySelected now t)).map Terminal.id).Nodup :=
    List.Nodup.sublist (List.Sublist.map Terminal.id (List.filter_sublist db)) hids
  rw [foldl_keyed_updates (fun t => _cleanup_terminal del t now) (fun _ => rfl)
    (db.filter (fun t => expirySelected now t)) db hsub]
  apply List.map_congr_left
  intro u hu
  by_cases hsel : expirySelected now u = true
  · rw [if_pos hsel]
    have humem : u ∈ db.filter (fun t => expirySelected now t) :=
      List.mem_filter.mpr ⟨hu, hsel⟩
    cases hfind : (db.filter (fun t => expirySelected now t)).find?
        (fun s => s.id == u.id) with
    | none =>
      have h0 := List.find?_eq_none.mp hfind u humem
      simp at h0
    | some v =>
      have hvid := List.find?_some hfind
      have hvmem := List.mem_of_find?_eq_some hfind
      have hvdb : v ∈ db := (List.mem_filter.mp hvmem).1
      have hveq : v = u :=
        List.inj_on_of_nodup_map hids hvdb hu (beq_iff_eq.mp hvid)
      rw [hveq]
      rfl
  · rw [if_neg hsel]
    have hfind : (db.filter (fun t => expirySelected now t)).find?
        (fun s => s.id == u.id) = none := by
      apply List.find?_eq_none.mpr
      intro x hx hxid
      have hxdb : x ∈ db := (List.mem_filter.mp hx).1
      have hxeq : x = u :=
        List.inj_on_of_nodup_map hids hxdb hu (beq_iff_eq.mp hxid)
      rw [hxeq] at hx
      exact hsel (List.mem_filter.mp hx).2
    rw [hfind]

/-- An admin-soft-deleted, stopped record whose TTL has passed. -/
def tDel6 : Terminal :=
  { id := "x", status := .stopped, expires_at := some 5, deleted_at := some 7 }

/-- A container-deletion oracle that always raises, as when the
runtime is down. -/
def delFail : String → Except String Bool := fun _ => .error "driver down"

/-- C6 counterexample: the expiry query has no `deleted_at` filter — a
soft-deleted record with a passed TTL and status `Stopped` is selected
and mutated, so the pass does not select exactly the non-deleted
records as claimed. -/
theorem expiry_pass_selects_deleted_records :
    tDel6.deleted_at ≠ none
    ∧ expirySelected 10 tDel6 = true
    ∧ cleanup_expired_terminals delFail [tDel6] 10 =
        [{ tDel6 with status := .expired, deleted_at := some 10 }] :=
  ⟨by decide, rfl, rfl⟩

/-- A Started record whose TTL has passed, with a backing container. -/
def tExp6 : Terminal :=
  { id := "a", status := .started, expires_at := some 5,
    container_id := some "ca" }

/-- A Started record whose TTL has not passed. -/
def tLive6 : Terminal :=
  { id := "b", status := .started, expires_at := some 50 }

/-- Witness for the amended C6 at a concrete input: with distinct ids,
one expired and one current record, the pass expires exactly the
expired one — even though its container deletion raises — and leaves
the current one untouched. -/
theorem expiry_pass_processes_exactly_selected_witness :
    ([tExp6, tLive6].map Terminal.id).Nodup
    ∧ cleanup_expired_terminals delFail [tExp6, tLive6] 10 =
        [{ tExp6 with status := .expired, deleted_at := some 10 }, tLive6] := by
  refine ⟨by decide, ?_⟩
  rw [expiry_pass_processes_exactly_selected delFail [tExp6, tLive6] 10 (by decide)]
  rfl
